import Mathlib

/-!
Shallow embedding of the anomaly-detection core of the health-monitor
backend (src/services/anomalyDetector.js and the retrospective route in
src/routes/anomalies.js).

Modelling conventions:
* JS numbers are modelled as `ℚ` (all arithmetic the engine performs on
  vitals is exact rational arithmetic, except one square root, see below).
* The `bloodPressure` string `"sys/dia"` is modelled as the two parsed
  integers `systolic`/`diastolic` (the source parses it with
  `split("/").map(parseInt)` before any use).
* Timestamps (`recordedAt`, JS `Date` values) are modelled as `ℕ`
  (milliseconds since epoch); `setSeconds(0, 0)` becomes truncation to the
  minute, `t - t % 60000`.
* The wall-clock hour read by `new Date().getHours()` inside
  `checkBehavioralChanges` is passed explicitly as a `currentHour : ℕ`
  parameter.
* The per-subject mutable state (`dataWindow[patientId]`,
  `anomalyHistory[patientId]`) is passed explicitly: `detectAnomalies`
  takes the subject's window and history and returns the updated ones
  together with the `DetectionResult`.
* The z-score computation uses `Math.sqrt`; to stay computable the
  threshold test `|z| > 2.5` is expressed over `ℚ` by squaring
  (`hrAnomalyFires`), and `hrAnomalyFires_iff_real` proves it equal to the
  literal real-number formula `|d / (sqrt var || 1)| > 5/2` of the source.
* Alert messages are modelled as the source's template strings with the
  emoji prefixes dropped and numbers rendered by `toString`; the
  `hr_anomaly` alert's `value` field (the z-score, an irrational real in
  general) is never read by any code under verification and is modelled
  as `0`.
-/

namespace HealthMonitor

/-- Alert `type` field: the source only ever writes `"critical"` or
`"warning"`. -/
inductive AlertType
  | critical
  | warning
  deriving DecidableEq, Repr

/-- Alert `category` field: the fixed string tags the source writes. -/
inductive AlertCategory
  | bradycardia
  | tachycardia
  | hypertensive_crisis
  | hypotension
  | hypoxemia
  | fever
  | hypothermia
  | fall_detected
  | hr_anomaly
  | spo2_declining
  | sustained_inactivity
  | nocturnal_activity
  deriving DecidableEq, Repr

/-- One alert object as pushed by the detector. -/
structure Alert where
  type : AlertType
  category : AlertCategory
  message : String
  value : ℚ
  deriving DecidableEq, Repr

/-- Result `severity` field: `"normal"`, `"warning"` or `"critical"`. -/
inductive Severity
  | normal
  | warning
  | critical
  deriving DecidableEq, Repr

/-- One vitals sample (a `vitals` object / one `HealthRecord`'s payload).
`systolic`/`diastolic` are the parsed halves of the `bloodPressure`
string. -/
structure Vitals where
  heartRate : ℚ
  systolic : ℚ
  diastolic : ℚ
  spo2 : ℚ
  bodyTemperature : ℚ
  motionLevel : ℚ
  fallRiskScore : ℚ
  timestamp : ℕ
  deriving DecidableEq, Repr

/-- `patient.alertThresholds` (fields used by `checkCriticalVitals`):
`hrCritical = [low, high]`, `bpCritical = [systolicHigh, systolicLow]`,
`spo2Critical` scalar. -/
structure AlertThresholds where
  hrCriticalLow : ℚ
  hrCriticalHigh : ℚ
  bpCriticalHigh : ℚ
  bpCriticalLow : ℚ
  spo2Critical : ℚ
  deriving DecidableEq, Repr

/-- A patient document (fields the detector and the retrospective runner
read). -/
structure Patient where
  patientId : String
  name : String
  alertThresholds : AlertThresholds
  isActive : Bool
  deriving DecidableEq, Repr

/-- An entry of the per-subject `anomalyHistory` ring buffer. -/
structure HistoryEntry where
  timestamp : ℕ
  alerts : List Alert
  severity : Severity
  deriving DecidableEq, Repr

/-- `addToWindow(patientId, vitals)`: push, then evict the oldest entry
when the length exceeds 288. -/
def addToWindow (window : List Vitals) (vitals : Vitals) : List Vitals :=
  let pushed := window ++ [vitals]
  if pushed.length > 288 then pushed.drop 1 else pushed

/-- The blood-pressure string rendered back for alert messages
(`vitals.bloodPressure`). -/
def bpString (v : Vitals) : String :=
  toString v.systolic ++ "/" ++ toString v.diastolic

/-- `checkCriticalVitals(vitals, patient)`: absolute-threshold checks. -/
def checkCriticalVitals (vitals : Vitals) (patient : Patient) : List Alert :=
  let t := patient.alertThresholds
  (if vitals.heartRate < t.hrCriticalLow then
    [{ type := .critical, category := .bradycardia,
       message := "BRADYCARDIA: HR " ++ toString vitals.heartRate ++ " bpm (< "
         ++ toString t.hrCriticalLow ++ ")",
       value := vitals.heartRate }]
  else if vitals.heartRate > t.hrCriticalHigh then
    [{ type := .critical, category := .tachycardia,
       message := "TACHYCARDIA: HR " ++ toString vitals.heartRate ++ " bpm (> "
         ++ toString t.hrCriticalHigh ++ ")",
       value := vitals.heartRate }]
  else []) ++
  (if vitals.systolic > t.bpCriticalHigh then
    [{ type := .critical, category := .hypertensive_crisis,
       message := "HYPERTENSIVE CRISIS: BP " ++ bpString vitals ++ " (Systolic > "
         ++ toString t.bpCriticalHigh ++ ")",
       value := vitals.systolic }]
  else if vitals.systolic < t.bpCriticalLow then
    [{ type := .critical, category := .hypotension,
       message := "HYPOTENSION: BP " ++ bpString vitals ++ " (Systolic < "
         ++ toString t.bpCriticalLow ++ ")",
       value := vitals.systolic }]
  else []) ++
  (if vitals.spo2 < t.spo2Critical then
    [{ type := .critical, category := .hypoxemia,
       message := "HYPOXEMIA: SpO2 " ++ toString vitals.spo2 ++ "% (< "
         ++ toString t.spo2Critical ++ "%)",
       value := vitals.spo2 }]
  else []) ++
  (if vitals.bodyTemperature > 77/2 then
    [{ type := .warning, category := .fever,
       message := "FEVER: Temperature " ++ toString vitals.bodyTemperature ++ " C",
       value := vitals.bodyTemperature }]
  else if vitals.bodyTemperature < 35 then
    [{ type := .critical, category := .hypothermia,
       message := "HYPOTHERMIA: Temperature " ++ toString vitals.bodyTemperature ++ " C",
       value := vitals.bodyTemperature }]
  else [])

/-- Population mean of the window's heart rates
(`hrValues.reduce((a,b) => a+b) / hrValues.length`). -/
def hrMean (window : List Vitals) : ℚ :=
  (window.map (·.heartRate)).sum / (window.length : ℚ)

/-- Population variance of the window's heart rates (the radicand of the
source's `hrStd = Math.sqrt(...)`). -/
def hrVariance (window : List Vitals) : ℚ :=
  ((window.map (·.heartRate)).map (fun v => (v - hrMean window) ^ 2)).sum
    / (window.length : ℚ)

/-- The source's test `Math.abs(hrZScore) > 2.5` where
`hrZScore = (currentHR - hrMean) / (hrStd || 1)` and
`hrStd = sqrt(hrVariance)`, expressed over `ℚ` by squaring: when the
variance is zero the divisor is `1`, otherwise `|d|/√v > 5/2` is
equivalent to `(25/4)·v < d²`.  `hrAnomalyFires_iff_real` below proves
this equal to the literal real-number formula. -/
def hrAnomalyFires (window : List Vitals) (hr : ℚ) : Bool :=
  if hrVariance window = 0 then decide ((5 : ℚ)/2 < |hr - hrMean window|)
  else decide ((25 : ℚ)/4 * hrVariance window < (hr - hrMean window) ^ 2)

/-- `spo2Values = window.slice(-12).map(v => v.spo2)`;
`spo2Trend = spo2Values[spo2Values.length - 1] - spo2Values[0]`. -/
def spo2Trend (window : List Vitals) : ℚ :=
  let spo2Values := (window.drop (window.length - 12)).map (·.spo2)
  (spo2Values.getLast?).getD 0 - (spo2Values.head?).getD 0

/-- `checkStatisticalAnomalies(patientId, currentVitals)`: z-score test on
heart rate and SpO₂ trend test, on the pre-append window. -/
def checkStatisticalAnomalies (window : List Vitals) (currentVitals : Vitals) :
    List Alert :=
  if window.length < 12 then []
  else
    (if hrAnomalyFires window currentVitals.heartRate then
      [{ type := .warning, category := .hr_anomaly,
         message := "ABNORMAL HR: " ++ toString currentVitals.heartRate ++ " bpm",
         value := 0 }]
    else []) ++
    (if spo2Trend window < -5 then
      [{ type := .warning, category := .spo2_declining,
         message := "DECLINING SpO2: Down " ++ toString |spo2Trend window|
           ++ "% in last hour",
         value := spo2Trend window }]
    else [])

/-- `checkBehavioralChanges(patientId, vitals)`: circadian activity checks
on the pre-append window; `currentHour` is `new Date().getHours()`. -/
def checkBehavioralChanges (currentHour : ℕ) (window : List Vitals)
    (vitals : Vitals) : List Alert :=
  if window.length < 6 then []
  else
    let recentMotion := (window.drop (window.length - 6)).map (·.motionLevel)
    let avgRecentMotion := recentMotion.sum / (recentMotion.length : ℚ)
    let isNight := 22 ≤ currentHour ∨ currentHour ≤ 6
    (if ¬isNight ∧ avgRecentMotion < 1/10 ∧ window.length > 24 then
      (if (window.drop (window.length - 12)).all
          (fun v => decide (v.motionLevel < 15/100)) then
        [{ type := .warning, category := .sustained_inactivity,
           message := "SUSTAINED INACTIVITY: No movement for > 1 hour during active hours",
           value := avgRecentMotion }]
      else [])
    else []) ++
    (if isNight ∧ vitals.motionLevel > 6/10 then
      (let nightActivityCount :=
        ((window.drop (window.length - 12)).filter
          (fun v => decide (v.motionLevel > 1/2))).length
      if nightActivityCount > 6 then
        [{ type := .warning, category := .nocturnal_activity,
           message := "NOCTURNAL WANDERING: Unusual activity during night hours",
           value := (nightActivityCount : ℚ) }]
      else [])
    else [])

/-- `calculateAnomalyScore(alerts)`: 0 for no alerts, else
`min(100, criticalCount*30 + warningCount*10)`. -/
def calculateAnomalyScore (alerts : List Alert) : ℕ :=
  if alerts.length = 0 then 0
  else
    let criticalCount := (alerts.filter (fun a => decide (a.type = .critical))).length
    let warningCount := (alerts.filter (fun a => decide (a.type = .warning))).length
    min 100 (criticalCount * 30 + warningCount * 10)

/-- The result object returned by `detectAnomalies`. -/
structure DetectionResult where
  isAnomaly : Bool
  severity : Severity
  alerts : List Alert
  normalizedScore : ℕ
  deriving DecidableEq, Repr

/-- The `fall_detected` alert pushed by `detectAnomalies` when
`vitals.fallRiskScore > 80`. -/
def fallAlert (patientId : String) (score : ℚ) : Alert :=
  { type := .critical, category := .fall_detected,
    message := "FALL DETECTED: Patient " ++ patientId ++ " - Risk Score "
      ++ toString score ++ "%",
    value := score }

/-- `detectAnomalies(patientId, vitals, patientProfile)`.  The subject's
window and anomaly history are passed in and the updated ones returned
(`this.dataWindow[patientId]` / `this.anomalyHistory[patientId]`). -/
def detectAnomalies (currentHour : ℕ) (patientId : String) (vitals : Vitals)
    (patient : Patient) (window : List Vitals) (history : List HistoryEntry) :
    DetectionResult × List Vitals × List HistoryEntry :=
  -- 1. Critical vitals
  let criticalAlerts := checkCriticalVitals vitals patient
  let severity1 : Severity :=
    if criticalAlerts.any (fun a => decide (a.type = .critical)) then .critical
    else .normal
  -- 2. Fall detection
  let fallAlerts : List Alert :=
    if vitals.fallRiskScore > 80 then [fallAlert patientId vitals.fallRiskScore]
    else []
  let severity2 : Severity :=
    if vitals.fallRiskScore > 80 then .critical else severity1
  -- 3. Statistical anomalies
  let statAlerts := checkStatisticalAnomalies window vitals
  let severity3 : Severity :=
    if statAlerts.any (fun a => decide (a.type = .critical)) then .critical
    else if statAlerts.length > 0 ∧ severity2 ≠ .critical then .warning
    else severity2
  -- 4. Behavioral changes
  let behavioralAlerts := checkBehavioralChanges currentHour window vitals
  let severity4 : Severity :=
    if behavioralAlerts.any (fun a => decide (a.type = .critical)) then .critical
    else severity3
  let alerts := criticalAlerts ++ fallAlerts ++ statAlerts ++ behavioralAlerts
  -- Store anomaly history (keep last 100)
  let history1 :=
    if alerts.length > 0 then
      let pushed := history ++ [{ timestamp := vitals.timestamp,
                                  alerts := alerts, severity := severity4 }]
      if pushed.length > 100 then pushed.drop 1 else pushed
    else history
  let window1 := addToWindow window vitals
  ({ isAnomaly := decide (alerts.length > 0),
     severity := severity4,
     alerts := alerts,
     normalizedScore := calculateAnomalyScore alerts },
   window1, history1)

/-! ## Retrospective detection (`detectRetrospectiveAnomalies`) and the
`POST /api/anomalies/retrospective` route.

The MongoDB collaborators (`HealthRecord`, `Patient`, `Anomaly`,
`AlertLog`) are modelled as lists inside a `Database` value; queries
become filters, `.sort({recordedAt: 1})` a stable sort by `recordedAt`,
and `create`/`insertMany` appends.  Persistence always succeeds in the
model (the per-record `try`/`catch` never takes its error branch). -/

/-- One document of the `HealthRecord` collection (the fields the
detector reads; `systolic`/`diastolic` are the parsed `bloodPressure`). -/
structure HealthRecord where
  patientId : String
  heartRate : ℚ
  systolic : ℚ
  diastolic : ℚ
  spo2 : ℚ
  bodyTemperature : ℚ
  motionLevel : ℚ
  fallRiskScore : ℚ
  recordedAt : ℕ
  deriving DecidableEq, Repr

/-- The `vitals` object the runner builds from a health record. -/
def HealthRecord.toVitals (r : HealthRecord) : Vitals :=
  { heartRate := r.heartRate, systolic := r.systolic, diastolic := r.diastolic,
    spo2 := r.spo2, bodyTemperature := r.bodyTemperature,
    motionLevel := r.motionLevel, fallRiskScore := r.fallRiskScore,
    timestamp := r.recordedAt }

/-- One document of the `Anomaly` collection (fields the runner writes or
reads back for deduplication). -/
structure AnomalyRecord where
  patientId : String
  severity : Severity
  detectedAt : ℕ
  alerts : List Alert
  retrospective : Bool
  deriving DecidableEq, Repr

/-- One document of the `AlertLog` collection as written by the runner. -/
structure AlertLogRecord where
  patientId : String
  type : AlertType
  category : AlertCategory
  message : String
  value : ℚ
  timestamp : ℕ
  deriving DecidableEq, Repr

/-- The persistent store. -/
structure Database where
  healthRecords : List HealthRecord
  patients : List Patient
  anomalies : List AnomalyRecord
  alertLogs : List AlertLogRecord
  deriving DecidableEq, Repr

/-- Options of `detectRetrospectiveAnomalies` (dates already parsed). -/
structure RetroOptions where
  patientId : Option String
  startDate : Option ℕ
  endDate : Option ℕ
  updateDatabase : Bool
  deriving DecidableEq, Repr

/-- The health-record query: `{patientId?, recordedAt: {$gte?, $lte?}}`. -/
def recordMatches (opts : RetroOptions) (r : HealthRecord) : Bool :=
  (match opts.patientId with
   | some pid => decide (r.patientId = pid)
   | none => true) &&
  (match opts.startDate with
   | some s => decide (s ≤ r.recordedAt)
   | none => true) &&
  (match opts.endDate with
   | some e => decide (r.recordedAt ≤ e)
   | none => true)

/-- The existing-anomalies query: same as the record query with the
`recordedAt` range moved onto `detectedAt`. -/
def anomalyMatches (opts : RetroOptions) (a : AnomalyRecord) : Bool :=
  (match opts.patientId with
   | some pid => decide (a.patientId = pid)
   | none => true) &&
  (match opts.startDate with
   | some s => decide (s ≤ a.detectedAt)
   | none => true) &&
  (match opts.endDate with
   | some e => decide (a.detectedAt ≤ e)
   | none => true)

/-- `new Date(t).setSeconds(0, 0)`: truncate a millisecond timestamp to
the minute. -/
def minuteTrunc (t : ℕ) : ℕ := t - t % 60000

/-- The dedup key `` `${patientId}-${timestamp}` ``. -/
def anomalyKey (patientId : String) (recordedAt : ℕ) : String × ℕ :=
  (patientId, minuteTrunc recordedAt)

/-- The dedup keys of the anomalies a run's existing-anomaly query sees
(`existingAnomalySet` built from `Anomaly.find(existingAnomaliesQuery)`). -/
def dbKeys (opts : RetroOptions) (db : Database) : List (String × ℕ) :=
  (db.anomalies.filter (anomalyMatches opts)).map (fun a =>
    anomalyKey a.patientId a.detectedAt)

/-- `results.patientsSummary[pid]`. -/
structure PatientSummary where
  patientName : String
  recordsProcessed : ℕ
  newAnomalies : ℕ
  criticalAnomalies : ℕ
  warningAnomalies : ℕ
  deriving DecidableEq, Repr

/-- The `results` object of `detectRetrospectiveAnomalies`. -/
structure RetroResults where
  processed : ℕ
  newAnomaliesDetected : ℕ
  criticalCount : ℕ
  warningCount : ℕ
  patientsSummary : List (String × PatientSummary)
  errors : List String
  deriving DecidableEq, Repr

/-- The initial `results` value. -/
def emptyResults : RetroResults :=
  { processed := 0, newAnomaliesDetected := 0, criticalCount := 0,
    warningCount := 0, patientsSummary := [], errors := [] }

/-- State threaded through one patient's record loop: the subject's
detector state, the dedup set, the accumulated results and summary, and
the database (which only grows by persisted anomalies / alert logs). -/
structure PatientLoopState where
  window : List Vitals
  history : List HistoryEntry
  existingAnomalySet : List (String × ℕ)
  results : RetroResults
  summary : PatientSummary
  db : Database
  deriving Repr

/-- The body of the per-record loop of `detectRetrospectiveAnomalies`. -/
def processRecord (currentHour : ℕ) (updateDatabase : Bool) (patient : Patient)
    (pid : String) (st : PatientLoopState) (record : HealthRecord) :
    PatientLoopState :=
  let st1 := { st with
    results := { st.results with processed := st.results.processed + 1 } }
  let d := detectAnomalies currentHour pid record.toVitals patient st1.window
    st1.history
  let detection := d.1
  let st2 := { st1 with window := d.2.1, history := d.2.2 }
  if detection.isAnomaly then
    let key := anomalyKey pid record.recordedAt
    if key ∈ st2.existingAnomalySet then st2
    else
      let st3 := { st2 with
        results := { st2.results with
          newAnomaliesDetected := st2.results.newAnomaliesDetected + 1,
          criticalCount :=
            if detection.severity = .critical then st2.results.criticalCount + 1
            else st2.results.criticalCount,
          warningCount :=
            if detection.severity = .warning then st2.results.warningCount + 1
            else st2.results.warningCount },
        summary := { st2.summary with
          newAnomalies := st2.summary.newAnomalies + 1,
          criticalAnomalies :=
            if detection.severity = .critical then st2.summary.criticalAnomalies + 1
            else st2.summary.criticalAnomalies,
          warningAnomalies :=
            if detection.severity = .warning then st2.summary.warningAnomalies + 1
            else st2.summary.warningAnomalies } }
      if updateDatabase then
        let anomaly : AnomalyRecord :=
          { patientId := pid, severity := detection.severity,
            detectedAt := record.recordedAt, alerts := detection.alerts,
            retrospective := true }
        let alertLogs := detection.alerts.map (fun alert =>
          ({ patientId := pid, type := alert.type, category := alert.category,
             message := alert.message, value := alert.value,
             timestamp := record.recordedAt } : AlertLogRecord))
        { st3 with
          db := { st3.db with
            anomalies := st3.db.anomalies ++ [anomaly],
            alertLogs := st3.db.alertLogs ++ alertLogs },
          existingAnomalySet := st3.existingAnomalySet ++ [key] }
      else st3
  else st2

/-- The `recordedAt` of the first record of a group
(`records[0].recordedAt`; groups are never empty in the source). -/
def firstRecordedAt (records : List HealthRecord) : ℕ :=
  ((records.head?).map (·.recordedAt)).getD 0

/-- The up-to-50 context records immediately preceding `firstTs` for
`pid`: query `{patientId: pid, recordedAt: {$lt: first}}`, sort
descending, limit 50, then reverse to chronological order. -/
def contextRecords (healthRecords : List HealthRecord) (pid : String)
    (firstTs : ℕ) : List HealthRecord :=
  ((List.insertionSort (fun a b => b.recordedAt ≤ a.recordedAt)
      (healthRecords.filter (fun r =>
        decide (r.patientId = pid) && decide (r.recordedAt < firstTs)))).take
    50).reverse

/-- The context records fed through `addToWindow` only: the window a
patient's replay starts from. -/
def contextWindow (healthRecords : List HealthRecord) (pid : String)
    (firstTs : ℕ) : List Vitals :=
  (contextRecords healthRecords pid firstTs).foldl
    (fun w r => addToWindow w r.toVitals) []

/-- State threaded through the per-patient loop. -/
structure RunState where
  existingAnomalySet : List (String × ℕ)
  results : RetroResults
  db : Database
  deriving Repr

/-- Processing of one patient's record group: resolve the patient (a
missing one becomes a non-fatal error), reset detector state, preload the
context window, replay the records through `detectAnomalies`, then attach
the per-patient summary.  (The source writes `patientsSummary[pid]` before
the loop and mutates it while looping; the net effect is attaching the
final summary.) -/
def processPatient (currentHour : ℕ) (updateDatabase : Bool)
    (patients : List Patient) (st : RunState)
    (pid : String) (records : List HealthRecord) : RunState :=
  match patients.find? (fun p => decide (p.patientId = pid)) with
  | none =>
    { st with results := { st.results with
        errors := st.results.errors ++ ["Patient " ++ pid ++ " not found in database"] } }
  | some patient =>
    let summary0 : PatientSummary :=
      { patientName := patient.name, recordsProcessed := records.length,
        newAnomalies := 0, criticalAnomalies := 0, warningAnomalies := 0 }
    let final := records.foldl (processRecord currentHour updateDatabase patient pid)
      { window := contextWindow st.db.healthRecords pid (firstRecordedAt records),
        history := [],
        existingAnomalySet := st.existingAnomalySet, results := st.results,
        summary := summary0, db := st.db }
    { existingAnomalySet := final.existingAnomalySet,
      results := { final.results with
        patientsSummary := final.results.patientsSummary ++ [(pid, final.summary)] },
      db := final.db }

/-- The patient ids in first-occurrence order (JS object key insertion
order of `recordsByPatient`). -/
def groupPids (records : List HealthRecord) : List String :=
  records.foldl (fun acc r => if r.patientId ∈ acc then acc else acc ++ [r.patientId]) []

/-- The patients the run processes:
`patientId ? {patientId} : {isActive: true}`. -/
def activePatients (db : Database) (opts : RetroOptions) : List Patient :=
  db.patients.filter (fun p =>
    match opts.patientId with
    | some pid => decide (p.patientId = pid)
    | none => p.isActive)

/-- The health records the run replays: the query result sorted by
`recordedAt` ascending. -/
def queriedRecords (db : Database) (opts : RetroOptions) : List HealthRecord :=
  List.insertionSort (fun a b => a.recordedAt ≤ b.recordedAt)
    (db.healthRecords.filter (recordMatches opts))

/-- The state after the per-patient loop of
`detectRetrospectiveAnomalies`. -/
def runStateFinal (currentHour : ℕ) (db : Database) (opts : RetroOptions) :
    RunState :=
  (groupPids (queriedRecords db opts)).foldl (fun st pid =>
      processPatient currentHour opts.updateDatabase (activePatients db opts)
        st pid
        ((queriedRecords db opts).filter (fun r => decide (r.patientId = pid))))
    { existingAnomalySet := dbKeys opts db, results := emptyResults, db := db }

/-- `detectRetrospectiveAnomalies(options)`: returns the results object
and the updated database. -/
def detectRetrospectiveAnomalies (currentHour : ℕ) (db : Database)
    (opts : RetroOptions) : RetroResults × Database :=
  if (activePatients db opts).length = 0 then (emptyResults, db)
  else ((runStateFinal currentHour db opts).results,
    (runStateFinal currentHour db opts).db)

/-! ### The `POST /api/anomalies/retrospective` route -/

/-- Outcome of `new Date(string)` on a request-body date string: a valid
timestamp or `NaN` (`invalid`). -/
inductive ParsedDate
  | valid (time : ℕ)
  | invalid
  deriving DecidableEq, Repr

/-- The request body (date strings already put through `new Date`;
`none` = field absent or null). -/
structure RetroRequestBody where
  patientId : Option String
  startDate : Option ParsedDate
  endDate : Option ParsedDate
  updateDatabase : Bool
  deriving DecidableEq, Repr

/-- The route's response: `400 {error}` or `200` with the runner's
results. -/
inductive RouteResponse
  | badRequest (error : String)
  | ok (results : RetroResults)
  deriving DecidableEq, Repr

/-- The `POST /api/anomalies/retrospective` handler: validate the dates,
then run `detectRetrospectiveAnomalies`. -/
def retrospectiveRoute (currentHour : ℕ) (db : Database)
    (body : RetroRequestBody) : RouteResponse × Database :=
  if body.startDate = some .invalid then
    (.badRequest "Invalid startDate format", db)
  else if body.endDate = some .invalid then
    (.badRequest "Invalid endDate format", db)
  else
    let startDate : Option ℕ :=
      match body.startDate with
      | some (.valid t) => some t
      | _ => none
    let endDate : Option ℕ :=
      match body.endDate with
      | some (.valid t) => some t
      | _ => none
    match startDate, endDate with
    | some s, some e =>
      if s > e then (.badRequest "startDate cannot be after endDate", db)
      else
        let r := detectRetrospectiveAnomalies currentHour db
          { patientId := body.patientId, startDate := some s, endDate := some e,
            updateDatabase := body.updateDatabase }
        (.ok r.1, r.2)
    | s, e =>
      let r := detectRetrospectiveAnomalies currentHour db
        { patientId := body.patientId, startDate := s, endDate := e,
          updateDatabase := body.updateDatabase }
      (.ok r.1, r.2)

/-! ## Concrete inputs used by counterexamples and witnesses -/

/-- Thresholds no benign sample trips. -/
def benignThresholds : AlertThresholds :=
  { hrCriticalLow := 30, hrCriticalHigh := 200, bpCriticalHigh := 250,
    bpCriticalLow := 40, spo2Critical := 50 }

/-- A patient profile with the benign thresholds. -/
def benignPatient : Patient :=
  { patientId := "P1", name := "Alice", alertThresholds := benignThresholds,
    isActive := true }

/-- A sample that trips no check at all against `benignPatient`. -/
def baseVitals : Vitals :=
  { heartRate := 70, systolic := 120, diastolic := 80, spo2 := 98,
    bodyTemperature := 37, motionLevel := 3/10, fallRiskScore := 10,
    timestamp := 0 }

/-! ## Alert counting (`calculateAnomalyScore`) -/

/-- `alerts.filter(a => a.type === "critical").length`. -/
def criticalAlertCount (alerts : List Alert) : ℕ :=
  (alerts.filter (fun a => decide (a.type = .critical))).length

/-- `alerts.filter(a => a.type === "warning").length`. -/
def warningAlertCount (alerts : List Alert) : ℕ :=
  (alerts.filter (fun a => decide (a.type = .warning))).length

/-- Every alert is typed `critical` or `warning`, so the two counts
partition the list. -/
theorem count_partition (alerts : List Alert) :
    criticalAlertCount alerts + warningAlertCount alerts = alerts.length := by
  induction alerts with
  | nil => rfl
  | cons a l ih =>
    rcases h : a.type <;>
      simp only [criticalAlertCount, warningAlertCount, List.filter_cons, h,
        List.length_cons] at * <;>
      simp only [decide_eq_true_eq, reduceCtorEq, if_false, if_true,
        List.length_cons] <;>
      omega

/-- `calculateAnomalyScore` always equals the clamped weighted count (the
empty-list early return agrees with the formula). -/
theorem calculateAnomalyScore_eq (alerts : List Alert) :
    calculateAnomalyScore alerts =
      min 100 (criticalAlertCount alerts * 30 + warningAlertCount alerts * 10) := by
  by_cases h : alerts.length = 0
  · have : alerts = [] := List.length_eq_zero.mp h
    subst this
    rfl
  · simp [calculateAnomalyScore, h, criticalAlertCount, warningAlertCount]

/-- C8: the anomaly score is `min(100, criticalCount*30 + warningCount*10)`;
`score([]) = 0`; the score is monotone in both alert counts; the score
never exceeds 100. -/
theorem anomalyScore_spec :
    (∀ alerts : List Alert,
        calculateAnomalyScore alerts =
          min 100 (criticalAlertCount alerts * 30 + warningAlertCount alerts * 10)) ∧
    calculateAnomalyScore [] = 0 ∧
    (∀ a1 a2 : List Alert, criticalAlertCount a1 ≤ criticalAlertCount a2 →
        warningAlertCount a1 ≤ warningAlertCount a2 →
        calculateAnomalyScore a1 ≤ calculateAnomalyScore a2) ∧
    (∀ alerts : List Alert, calculateAnomalyScore alerts ≤ 100) := by
  refine ⟨calculateAnomalyScore_eq, rfl, ?_, ?_⟩
  · intro a1 a2 h1 h2
    rw [calculateAnomalyScore_eq, calculateAnomalyScore_eq]
    omega
  · intro alerts
    rw [calculateAnomalyScore_eq]
    omega

/-- Witness for C8: the monotonicity part applied at concrete alert
lists. -/
theorem anomalyScore_spec_witness :
    calculateAnomalyScore [] ≤ calculateAnomalyScore [fallAlert "P1" 90] :=
  anomalyScore_spec.2.2.1 [] [fallAlert "P1" 90] (by decide) (by decide)

/-- The alert list of a detection result, unfolded: the four evaluator
outputs in order. -/
theorem detectAnomalies_alerts_eq (currentHour : ℕ) (patientId : String)
    (vitals : Vitals) (patient : Patient) (window : List Vitals)
    (history : List HistoryEntry) :
    (detectAnomalies currentHour patientId vitals patient window history).1.alerts =
      checkCriticalVitals vitals patient ++
      (if vitals.fallRiskScore > 80 then [fallAlert patientId vitals.fallRiskScore]
       else []) ++
      checkStatisticalAnomalies window vitals ++
      checkBehavioralChanges currentHour window vitals := rfl

/-- The `isAnomaly` flag, unfolded. -/
theorem detectAnomalies_isAnomaly_eq (currentHour : ℕ) (patientId : String)
    (vitals : Vitals) (patient : Patient) (window : List Vitals)
    (history : List HistoryEntry) :
    (detectAnomalies currentHour patientId vitals patient window history).1.isAnomaly =
      decide ((detectAnomalies currentHour patientId vitals patient window
        history).1.alerts.length > 0) := rfl

/-- The score field, unfolded. -/
theorem detectAnomalies_score_eq (currentHour : ℕ) (patientId : String)
    (vitals : Vitals) (patient : Patient) (window : List Vitals)
    (history : List HistoryEntry) :
    (detectAnomalies currentHour patientId vitals patient window history).1.normalizedScore =
      calculateAnomalyScore
        (detectAnomalies currentHour patientId vitals patient window history).1.alerts := rfl

/-- A positive score is the same as a non-empty alert list (every alert
is typed critical or warning, so a non-empty list scores at least 10). -/
theorem score_pos_iff (alerts : List Alert) :
    0 < calculateAnomalyScore alerts ↔ alerts ≠ [] := by
  rw [calculateAnomalyScore_eq]
  have hpart := count_partition alerts
  constructor
  · intro h hnil
    subst hnil
    simp [criticalAlertCount, warningAlertCount] at h
  · intro h
    have : 0 < alerts.length := List.length_pos.mpr h
    omega

/-- C10: `isAnomaly` is true exactly when the alert list is non-empty,
and the normalized score is positive exactly when `isAnomaly` is true. -/
theorem detect_isAnomaly_iff (currentHour : ℕ) (patientId : String)
    (vitals : Vitals) (patient : Patient) (window : List Vitals)
    (history : List HistoryEntry) :
    ((detectAnomalies currentHour patientId vitals patient window history).1.isAnomaly = true ↔
      (detectAnomalies currentHour patientId vitals patient window history).1.alerts ≠ []) ∧
    (0 < (detectAnomalies currentHour patientId vitals patient window history).1.normalizedScore ↔
      (detectAnomalies currentHour patientId vitals patient window history).1.isAnomaly = true) := by
  have h1 : (detectAnomalies currentHour patientId vitals patient window
        history).1.isAnomaly = true ↔
      (detectAnomalies currentHour patientId vitals patient window
        history).1.alerts ≠ [] := by
    rw [detectAnomalies_isAnomaly_eq, decide_eq_true_eq]
    exact ⟨fun h => List.ne_nil_of_length_pos h, fun h => List.length_pos.mpr h⟩
  refine ⟨h1, ?_⟩
  rw [h1, detectAnomalies_score_eq, score_pos_iff]

/-! ## The rolling window (C5) -/

/-- The window after folding any sample list into an empty window keeps
exactly the last 288 samples. -/
theorem foldl_addToWindow_eq_drop (samples : List Vitals) :
    samples.foldl addToWindow [] = samples.drop (samples.length - 288) := by
  induction samples using List.reverseRecOn with
  | nil => rfl
  | append_singleton l v ih =>
    rw [List.foldl_append, List.foldl_cons, List.foldl_nil, ih]
    by_cases h : l.length ≤ 287
    · have h0 : l.length - 288 = 0 := by omega
      rw [h0, List.drop_zero]
      unfold addToWindow
      rw [if_neg (by rw [List.length_append, List.length_singleton]; omega)]
      have h1 : (l ++ [v]).length - 288 = 0 := by
        rw [List.length_append, List.length_singleton]
        omega
      rw [h1, List.drop_zero]
    · unfold addToWindow
      have hlen : (l.drop (l.length - 288)).length = 288 := by
        rw [List.length_drop]
        omega
      rw [if_pos (by rw [List.length_append, List.length_singleton, hlen]; omega)]
      have h2 : (l ++ [v]).length - 288 = (l.length - 288) + 1 := by
        rw [List.length_append, List.length_singleton]
        omega
      rw [h2]
      have h3 : (l ++ [v]).drop (l.length - 288 + 1) =
          l.drop (l.length - 288 + 1) ++ [v] :=
        List.drop_append_of_le_length (by omega)
      have h4 : (l.drop (l.length - 288) ++ [v]).drop 1 =
          (l.drop (l.length - 288)).drop 1 ++ [v] :=
        List.drop_append_of_le_length (by rw [List.length_drop]; omega)
      rw [h3, h4, List.drop_drop, Nat.add_comm]

/-- C5: appending preserves the 288 bound, and after 289 sequential
appends from empty the window is the last 288 samples: it has length 288
and the very first appended sample is gone (whenever it does not reoccur
later in the sequence). -/
theorem window_fifo_spec :
    (∀ (window : List Vitals) (v : Vitals), window.length ≤ 288 →
        (addToWindow window v).length ≤ 288) ∧
    (∀ samples : List Vitals, samples.length = 289 →
        samples.foldl addToWindow [] = samples.drop 1 ∧
        (samples.foldl addToWindow []).length = 288) ∧
    (∀ (samples : List Vitals) (v : Vitals), samples.length = 289 →
        samples.head? = some v → v ∉ samples.drop 1 →
        v ∉ samples.foldl addToWindow []) := by
  refine ⟨?_, ?_, ?_⟩
  · intro window v h
    unfold addToWindow
    by_cases hgt : (window ++ [v]).length > 288
    · rw [if_pos hgt]
      rw [List.length_drop, List.length_append, List.length_singleton]
      omega
    · rw [if_neg hgt]
      omega
  · intro samples h
    have hdrop : samples.length - 288 = 1 := by omega
    have := foldl_addToWindow_eq_drop samples
    rw [hdrop] at this
    refine ⟨this, ?_⟩
    rw [this, List.length_drop, h]
  · intro samples v h hhead hmem
    have hdrop : samples.length - 288 = 1 := by omega
    have heq := foldl_addToWindow_eq_drop samples
    rw [hdrop] at heq
    rw [heq]
    exact hmem

/-- Witness for C5: 289 samples distinguished by timestamp. -/
def witSamples : List Vitals :=
  (List.range 289).map (fun i => { baseVitals with timestamp := i })

/-- Witness for C5: at the concrete 289-sample sequence, the window ends
with 288 entries and without the first sample. -/
theorem window_fifo_spec_witness :
    (witSamples.foldl addToWindow []).length = 288 ∧
    { baseVitals with timestamp := 0 } ∉ witSamples.foldl addToWindow [] := by
  have hlen : witSamples.length = 289 := by
    simp [witSamples]
  refine ⟨(window_fifo_spec.2.1 witSamples hlen).2, ?_⟩
  refine window_fifo_spec.2.2 witSamples _ hlen
    (by with_unfolding_all decide) ?_
  intro hmem
  rw [show witSamples.drop 1 =
      ((List.range 289).drop 1).map (fun i => { baseVitals with timestamp := i })
    from (List.map_drop ..).symm] at hmem
  rw [List.mem_map] at hmem
  obtain ⟨i, hi, heq⟩ := hmem
  have htime : i = 0 := by
    have := congrArg Vitals.timestamp heq
    simpa using this
  subst htime
  obtain ⟨j, hj, hget⟩ := List.mem_drop_iff_getElem.mp hi
  rw [List.getElem_range] at hget
  omega

/-! ## Severity aggregation (C1, C4) -/

/-- Statistical alerts are always warnings (the source's z-score branch
writes `"warning"` on both sides of its ternary, and the trend branch
writes `"warning"`). -/
theorem checkStatisticalAnomalies_all_warning (window : List Vitals) (v : Vitals) :
    ∀ a ∈ checkStatisticalAnomalies window v, a.type = .warning := by
  unfold checkStatisticalAnomalies
  split_ifs <;> intro a ha <;> simp_all [List.mem_append] <;> aesop

/-- Behavioral alerts are always warnings. -/
theorem checkBehavioralChanges_all_warning (currentHour : ℕ)
    (window : List Vitals) (v : Vitals) :
    ∀ a ∈ checkBehavioralChanges currentHour window v, a.type = .warning := by
  unfold checkBehavioralChanges
  split_ifs <;> intro a ha <;> simp_all [List.mem_append] <;> aesop

/-- The severity field, unfolded to the source's update chain. -/
theorem detectAnomalies_severity_unfold (currentHour : ℕ) (patientId : String)
    (vitals : Vitals) (patient : Patient) (window : List Vitals)
    (history : List HistoryEntry) :
    (detectAnomalies currentHour patientId vitals patient window history).1.severity =
      (let criticalAlerts := checkCriticalVitals vitals patient
       let severity1 : Severity :=
         if criticalAlerts.any (fun a => decide (a.type = .critical)) then .critical
         else .normal
       let severity2 : Severity :=
         if vitals.fallRiskScore > 80 then .critical else severity1
       let statAlerts := checkStatisticalAnomalies window vitals
       let severity3 : Severity :=
         if statAlerts.any (fun a => decide (a.type = .critical)) then .critical
         else if statAlerts.length > 0 ∧ severity2 ≠ .critical then .warning
         else severity2
       let behavioralAlerts := checkBehavioralChanges currentHour window vitals
       if behavioralAlerts.any (fun a => decide (a.type = .critical)) then .critical
       else severity3) := rfl

/-- Whether any alert of the whole result is critical reduces to the
threshold evaluator and the fall branch (statistical and behavioral
alerts are never critical). -/
theorem detect_alerts_any_critical (currentHour : ℕ) (patientId : String)
    (vitals : Vitals) (patient : Patient) (window : List Vitals)
    (history : List HistoryEntry) :
    (detectAnomalies currentHour patientId vitals patient window
        history).1.alerts.any (fun a => decide (a.type = .critical)) =
      ((checkCriticalVitals vitals patient).any (fun a => decide (a.type = .critical))
        || decide (vitals.fallRiskScore > 80)) := by
  have hstat : (checkStatisticalAnomalies window vitals).any
      (fun a => decide (a.type = AlertType.critical)) = false := by
    rw [List.any_eq_false]
    intro a ha
    simp [checkStatisticalAnomalies_all_warning window vitals a ha]
  have hbeh : (checkBehavioralChanges currentHour window vitals).any
      (fun a => decide (a.type = AlertType.critical)) = false := by
    rw [List.any_eq_false]
    intro a ha
    simp [checkBehavioralChanges_all_warning currentHour window vitals a ha]
  rw [detectAnomalies_alerts_eq]
  rw [List.any_append, List.any_append, List.any_append, hstat, hbeh]
  by_cases hf : vitals.fallRiskScore > 80
  · simp [hf, fallAlert]
  · simp [hf]

/-- The returned severity as a function of "some alert is critical" and
"the statistical evaluator produced an alert". -/
theorem detectAnomalies_severity_eq (currentHour : ℕ) (patientId : String)
    (vitals : Vitals) (patient : Patient) (window : List Vitals)
    (history : List HistoryEntry) :
    (detectAnomalies currentHour patientId vitals patient window history).1.severity =
      (if (detectAnomalies currentHour patientId vitals patient window
            history).1.alerts.any (fun a => decide (a.type = .critical)) then .critical
       else if checkStatisticalAnomalies window vitals = [] then .normal
       else .warning) := by
  have hstat : (checkStatisticalAnomalies window vitals).any
      (fun a => decide (a.type = AlertType.critical)) = false := by
    rw [List.any_eq_false]
    intro a ha
    simp [checkStatisticalAnomalies_all_warning window vitals a ha]
  have hbeh : (checkBehavioralChanges currentHour window vitals).any
      (fun a => decide (a.type = AlertType.critical)) = false := by
    rw [List.any_eq_false]
    intro a ha
    simp [checkBehavioralChanges_all_warning currentHour window vitals a ha]
  rw [detectAnomalies_severity_unfold, detect_alerts_any_critical]
  simp only [hstat, hbeh, Bool.false_eq_true, if_false]
  by_cases hc : (checkCriticalVitals vitals patient).any
      (fun a => decide (a.type = AlertType.critical)) = true
  · by_cases hf : vitals.fallRiskScore > 80 <;>
      by_cases hs : checkStatisticalAnomalies window vitals = [] <;>
      simp [hc, hf, hs]
  · rw [Bool.not_eq_true] at hc
    by_cases hf : vitals.fallRiskScore > 80 <;>
      by_cases hs : checkStatisticalAnomalies window vitals = [] <;>
      simp [hc, hf, hs, List.length_pos, List.isEmpty_iff]

/-- The fever-only sample of the C1 counterexample. -/
def feverVitals : Vitals := { baseVitals with bodyTemperature := 39 }

/-- C1 counterexample: a sample whose only alert is the `fever` warning
from the threshold evaluator yields a non-empty, critical-free alert list
but severity `normal`, not `warning` as the claim states. -/
theorem severity_claim_counterexample :
    (detectAnomalies 12 "P1" feverVitals benignPatient [] []).1.alerts ≠ [] ∧
    (∀ a ∈ (detectAnomalies 12 "P1" feverVitals benignPatient [] []).1.alerts,
        a.type ≠ .critical) ∧
    (detectAnomalies 12 "P1" feverVitals benignPatient [] []).1.severity = .normal := by
  with_unfolding_all decide

/-- C1 (amended): severity is `critical` iff some collected alert is
critical; it is `warning` iff no alert is critical and the statistical
evaluator emitted at least one alert; otherwise it is `normal`.  Warning
alerts coming only from the threshold evaluator (fever) or the behavioral
evaluator leave the severity at `normal`. -/
theorem detect_severity_amended (currentHour : ℕ) (patientId : String)
    (vitals : Vitals) (patient : Patient) (window : List Vitals)
    (history : List HistoryEntry) :
    ((detectAnomalies currentHour patientId vitals patient window history).1.severity
        = .critical ↔
      (detectAnomalies currentHour patientId vitals patient window
        history).1.alerts.any (fun a => decide (a.type = .critical)) = true) ∧
    ((detectAnomalies currentHour patientId vitals patient window history).1.severity
        = .warning ↔
      ((detectAnomalies currentHour patientId vitals patient window
          history).1.alerts.any (fun a => decide (a.type = .critical)) = false ∧
        checkStatisticalAnomalies window vitals ≠ [])) ∧
    ((detectAnomalies currentHour patientId vitals patient window history).1.severity
        = .normal ↔
      ((detectAnomalies currentHour patientId vitals patient window
          history).1.alerts.any (fun a => decide (a.type = .critical)) = false ∧
        checkStatisticalAnomalies window vitals = [])) := by
  rw [detectAnomalies_severity_eq]
  by_cases hc : (detectAnomalies currentHour patientId vitals patient window
      history).1.alerts.any (fun a => decide (a.type = .critical)) = true
  · by_cases hs : checkStatisticalAnomalies window vitals = [] <;> simp [hc, hs]
  · rw [Bool.not_eq_true] at hc
    by_cases hs : checkStatisticalAnomalies window vitals = [] <;> simp [hc, hs]

/-- The `bradycardia` alert as pushed by `checkCriticalVitals`
(definitionally equal to the inline literal there). -/
def bradycardiaAlert (vitals : Vitals) (t : AlertThresholds) : Alert :=
  { type := .critical, category := .bradycardia,
    message := "BRADYCARDIA: HR " ++ toString vitals.heartRate ++ " bpm (< "
      ++ toString t.hrCriticalLow ++ ")",
    value := vitals.heartRate }

/-- C4: any sample with heart rate strictly below the low critical
threshold produces a critical `bradycardia` alert and overall severity
`critical`, whatever the rest of the sample, the profile and the window
state. -/
theorem bradycardia_spec (currentHour : ℕ) (patientId : String)
    (vitals : Vitals) (patient : Patient) (window : List Vitals)
    (history : List HistoryEntry)
    (h : vitals.heartRate < patient.alertThresholds.hrCriticalLow) :
    (∃ a ∈ (detectAnomalies currentHour patientId vitals patient window
        history).1.alerts, a.category = .bradycardia ∧ a.type = .critical) ∧
    (detectAnomalies currentHour patientId vitals patient window
        history).1.severity = .critical := by
  obtain ⟨rest, hrest⟩ : ∃ rest, checkCriticalVitals vitals patient =
      bradycardiaAlert vitals patient.alertThresholds :: rest := by
    simp only [checkCriticalVitals, h, if_true, List.cons_append]
    exact ⟨_, rfl⟩
  have hamem : bradycardiaAlert vitals patient.alertThresholds ∈
      checkCriticalVitals vitals patient := by
    rw [hrest]
    exact List.mem_cons_self _ _
  have hany : (detectAnomalies currentHour patientId vitals patient window
      history).1.alerts.any (fun a => decide (a.type = .critical)) = true := by
    rw [detect_alerts_any_critical]
    have hc : (checkCriticalVitals vitals patient).any
        (fun a => decide (a.type = AlertType.critical)) = true :=
      List.any_eq_true.mpr ⟨_, hamem, by simp [bradycardiaAlert]⟩
    rw [hc, Bool.true_or]
  constructor
  · refine ⟨bradycardiaAlert vitals patient.alertThresholds, ?_, rfl, rfl⟩
    rw [detectAnomalies_alerts_eq]
    exact List.mem_append_left _ (List.mem_append_left _
      (List.mem_append_left _ hamem))
  · rw [detectAnomalies_severity_eq]
    simp [hany]

/-- Witness for C4: heart rate 20 against the benign profile (low
critical threshold 30). -/
theorem bradycardia_spec_witness :
    (∃ a ∈ (detectAnomalies 12 "P1" { baseVitals with heartRate := 20 }
        benignPatient [] []).1.alerts, a.category = .bradycardia ∧ a.type = .critical) ∧
    (detectAnomalies 12 "P1" { baseVitals with heartRate := 20 }
        benignPatient [] []).1.severity = .critical :=
  bradycardia_spec 12 "P1" { baseVitals with heartRate := 20 } benignPatient [] []
    (by with_unfolding_all decide)

/-! ## Fall detection (C7) -/

/-- The threshold evaluator never emits a `fall_detected` alert. -/
theorem checkCriticalVitals_no_fall (v : Vitals) (p : Patient) :
    (checkCriticalVitals v p).filter
      (fun a => decide (a.category = .fall_detected)) = [] := by
  simp only [checkCriticalVitals]
  split_ifs <;> rfl

/-- The statistical evaluator never emits a `fall_detected` alert. -/
theorem checkStatisticalAnomalies_no_fall (w : List Vitals) (v : Vitals) :
    (checkStatisticalAnomalies w v).filter
      (fun a => decide (a.category = .fall_detected)) = [] := by
  unfold checkStatisticalAnomalies
  split_ifs <;> rfl

/-- The behavioral evaluator never emits a `fall_detected` alert. -/
theorem checkBehavioralChanges_no_fall (currentHour : ℕ) (w : List Vitals)
    (v : Vitals) :
    (checkBehavioralChanges currentHour w v).filter
      (fun a => decide (a.category = .fall_detected)) = [] := by
  simp only [checkBehavioralChanges]
  split_ifs <;> rfl

/-- C7: a sample with fall risk score above 80 yields exactly one
`fall_detected` alert — critical, carrying the score, with a message
containing the subject id and the rendered score — independently of the
other vitals; a score of at most 80 yields none. -/
theorem fall_detection_spec (currentHour : ℕ) (patientId : String)
    (vitals : Vitals) (patient : Patient) (window : List Vitals)
    (history : List HistoryEntry) :
    (vitals.fallRiskScore > 80 →
      (detectAnomalies currentHour patientId vitals patient window
          history).1.alerts.filter
        (fun a => decide (a.category = .fall_detected)) =
          [fallAlert patientId vitals.fallRiskScore] ∧
      (fallAlert patientId vitals.fallRiskScore).type = .critical ∧
      (fallAlert patientId vitals.fallRiskScore).value = vitals.fallRiskScore ∧
      (∃ pre mid post, (fallAlert patientId vitals.fallRiskScore).message =
        pre ++ patientId ++ mid ++ toString vitals.fallRiskScore ++ post)) ∧
    (¬vitals.fallRiskScore > 80 →
      (detectAnomalies currentHour patientId vitals patient window
          history).1.alerts.filter
        (fun a => decide (a.category = .fall_detected)) = []) := by
  rw [detectAnomalies_alerts_eq, List.filter_append, List.filter_append,
    List.filter_append, checkCriticalVitals_no_fall,
    checkStatisticalAnomalies_no_fall, checkBehavioralChanges_no_fall,
    List.nil_append, List.append_nil, List.append_nil]
  constructor
  · intro h
    rw [if_pos h]
    exact ⟨rfl, rfl, rfl, "FALL DETECTED: Patient ", " - Risk Score ", "%", rfl⟩
  · intro h
    rw [if_neg h]
    rfl

/-- Witness for C7: a concrete sample with fall risk score 90. -/
theorem fall_detection_spec_witness :
    (detectAnomalies 12 "P1" { baseVitals with fallRiskScore := 90 } benignPatient
        [] []).1.alerts.filter
      (fun a => decide (a.category = .fall_detected)) =
        [fallAlert "P1" (90 : ℚ)] :=
  ((fall_detection_spec 12 "P1" { baseVitals with fallRiskScore := 90 }
    benignPatient [] []).1 (by with_unfolding_all decide)).1

/-! ## The 12-sample gate of the statistical evaluator (C6) -/

/-- The 12 prior window entries with constant heart rate 70. -/
def constWindow12 : List Vitals := List.replicate 12 baseVitals

/-- The same window one entry short. -/
def constWindow11 : List Vitals := List.replicate 11 baseVitals

/-- The spike sample: heart rate 100 against a constant-70 window, which
gives |z| = 30 > 2.5, and nothing else out of range. -/
def spikeVitals : Vitals := { baseVitals with heartRate := 100 }

/-- C6: the statistical evaluator yields no alerts on a window shorter
than 12 entries; with 12 prior constant-rate entries a spike makes
`detect()` emit the `hr_anomaly` warning, and with only 11 prior entries
the identical spike emits nothing. -/
theorem statistical_window_gate :
    (∀ (window : List Vitals) (v : Vitals), window.length < 12 →
        checkStatisticalAnomalies window v = []) ∧
    (constWindow12.length = 12 ∧
      ∃ a ∈ (detectAnomalies 12 "P1" spikeVitals benignPatient constWindow12
        []).1.alerts, a.category = .hr_anomaly ∧ a.type = .warning) ∧
    (constWindow11.length = 11 ∧
      ∀ a ∈ (detectAnomalies 12 "P1" spikeVitals benignPatient constWindow11
        []).1.alerts, a.category ≠ .hr_anomaly) := by
  refine ⟨?_, by with_unfolding_all decide, by with_unfolding_all decide⟩
  intro window v h
  unfold checkStatisticalAnomalies
  rw [if_pos h]

/-- Witness for C6: the short-window part applied to a singleton
window. -/
theorem statistical_window_gate_witness :
    checkStatisticalAnomalies [baseVitals] baseVitals = [] :=
  statistical_window_gate.1 [baseVitals] baseVitals (by decide)

/-! ## The z-score guard (C2) -/

/-- The window variance is non-negative (sum of squares over a
non-negative count). -/
theorem hrVariance_nonneg (window : List Vitals) : 0 ≤ hrVariance window := by
  unfold hrVariance
  apply div_nonneg
  · apply List.sum_nonneg
    intro x hx
    simp only [List.mem_map] at hx
    obtain ⟨q, hq, rfl⟩ := hx
    positivity
  · exact Nat.cast_nonneg _

/-- Casting the 2.5-threshold test between `ℚ` and `ℝ`. -/
theorem abs_gt_cast (q : ℚ) : ((5 : ℚ)/2 < |q|) ↔ ((5/2 : ℝ) < |(q : ℝ)|) := by
  rw [← Rat.cast_abs, show (5/2 : ℝ) = ((5/2 : ℚ) : ℝ) by norm_num, Rat.cast_lt]

/-- `hrAnomalyFires` is exactly the source's real-number test
`|z| > 2.5` with `z = (hr - mean) / (sqrt variance || 1)` — the divisor
is the standard deviation itself whenever it is non-zero, and `1` only
when it is zero. -/
theorem hrAnomalyFires_iff_real (window : List Vitals) (hr : ℚ) :
    hrAnomalyFires window hr = true ↔
      (5/2 : ℝ) < |((hr : ℝ) - (hrMean window : ℝ)) /
        (if Real.sqrt (hrVariance window) = 0 then 1
         else Real.sqrt (hrVariance window))| := by
  have hv := hrVariance_nonneg window
  have hd : ((hr : ℝ) - (hrMean window : ℝ)) = ((hr - hrMean window : ℚ) : ℝ) := by
    push_cast
    ring
  unfold hrAnomalyFires
  by_cases h0 : hrVariance window = 0
  · rw [if_pos h0, h0]
    simp only [Rat.cast_zero, Real.sqrt_zero, eq_self_iff_true, if_true,
      div_one, decide_eq_true_eq]
    rw [hd]
    exact abs_gt_cast _
  · rw [if_neg h0]
    have hvpos : (0 : ℚ) < hrVariance window := lt_of_le_of_ne hv (Ne.symm h0)
    have hvR : (0 : ℝ) < (hrVariance window : ℝ) := by exact_mod_cast hvpos
    have hs : 0 < Real.sqrt (hrVariance window : ℝ) := Real.sqrt_pos.mpr hvR
    rw [if_neg (ne_of_gt hs), decide_eq_true_eq, hd]
    rw [abs_div, abs_of_pos hs, lt_div_iff hs,
      ← Real.sqrt_sq_eq_abs ((hr - hrMean window : ℚ) : ℝ),
      Real.lt_sqrt (by positivity), mul_pow, Real.sq_sqrt (le_of_lt hvR),
      show ((5 : ℝ)/2)^2 = 25/4 by norm_num]
    rw [show (25/4 : ℝ) * (hrVariance window : ℝ) =
        ((25/4 * hrVariance window : ℚ) : ℝ) by push_cast; ring,
      show (((hr - hrMean window : ℚ) : ℝ))^2 =
        (((hr - hrMean window)^2 : ℚ) : ℝ) by push_cast; ring,
      Rat.cast_lt]

/-- The test of the C2 claim and the spec, `z = (hr - mean) /
max(stddev, 1)` with `|z| > 2.5`, expressed over `ℚ` by squaring (the
divisor is `1` exactly when the variance is at most `1`);
`specHrAnomalyFires_iff_real` proves it equal to the literal formula of
the spec's words. -/
def specHrAnomalyFires (window : List Vitals) (hr : ℚ) : Bool :=
  if hrVariance window ≤ 1 then decide ((5 : ℚ)/2 < |hr - hrMean window|)
  else decide ((25 : ℚ)/4 * hrVariance window < (hr - hrMean window) ^ 2)

/-- `specHrAnomalyFires` is the spec's real-number test with the
`max(stddev, 1)` guard. -/
theorem specHrAnomalyFires_iff_real (window : List Vitals) (hr : ℚ) :
    specHrAnomalyFires window hr = true ↔
      (5/2 : ℝ) < |((hr : ℝ) - (hrMean window : ℝ)) /
        max (Real.sqrt (hrVariance window)) 1| := by
  have hv := hrVariance_nonneg window
  have hd : ((hr : ℝ) - (hrMean window : ℝ)) = ((hr - hrMean window : ℚ) : ℝ) := by
    push_cast
    ring
  unfold specHrAnomalyFires
  by_cases h1 : hrVariance window ≤ 1
  · rw [if_pos h1]
    have hle : Real.sqrt (hrVariance window : ℝ) ≤ 1 := by
      have hmono := Real.sqrt_le_sqrt
        (show (hrVariance window : ℝ) ≤ 1 by exact_mod_cast h1)
      rwa [Real.sqrt_one] at hmono
    rw [max_eq_right hle, div_one, decide_eq_true_eq, hd]
    exact abs_gt_cast _
  · rw [if_neg h1]
    push_neg at h1
    have h1R : (1 : ℝ) < (hrVariance window : ℝ) := by exact_mod_cast h1
    have hs1 : 1 < Real.sqrt (hrVariance window : ℝ) := by
      have hmono := Real.sqrt_lt_sqrt (by norm_num : (0:ℝ) ≤ 1) h1R
      rwa [Real.sqrt_one] at hmono
    have hs : (0 : ℝ) < Real.sqrt (hrVariance window : ℝ) := by linarith
    rw [max_eq_left (le_of_lt hs1), decide_eq_true_eq, hd]
    rw [abs_div, abs_of_pos hs, lt_div_iff hs,
      ← Real.sqrt_sq_eq_abs ((hr - hrMean window : ℚ) : ℝ),
      Real.lt_sqrt (by positivity), mul_pow,
      Real.sq_sqrt (by positivity : (0:ℝ) ≤ (hrVariance window : ℝ)),
      show ((5 : ℝ)/2)^2 = 25/4 by norm_num]
    rw [show (25/4 : ℝ) * (hrVariance window : ℝ) =
        ((25/4 * hrVariance window : ℚ) : ℝ) by push_cast; ring,
      show (((hr - hrMean window : ℚ) : ℝ))^2 =
        (((hr - hrMean window)^2 : ℚ) : ℝ) by push_cast; ring,
      Rat.cast_lt]

/-- A window whose heart rates are six 10s and six 11s: mean 10.5,
variance 1/4, standard deviation 1/2. -/
def window12var : List Vitals :=
  List.replicate 6 { baseVitals with heartRate := 10 } ++
  List.replicate 6 { baseVitals with heartRate := 11 }

/-- The sample at heart rate 12.5: the source's z is
(12.5 - 10.5)/0.5 = 4 > 2.5 (alert fires), while the claimed
`max(stddev, 1)` formula gives z = 2 ≤ 2.5 (no alert). -/
def spikeHalfVitals : Vitals := { baseVitals with heartRate := 25/2 }

/-- C2 counterexample: on a 12-entry window with standard deviation 1/2,
the evaluator emits `hr_anomaly` although the claim's
`z = (hr - mean)/max(stddev, 1)` formula stays at |z| = 2 ≤ 2.5 — the
code divides by `stddev || 1`, not `max(stddev, 1)`. -/
theorem zscore_guard_counterexample :
    window12var.length = 12 ∧
    (∃ a ∈ checkStatisticalAnomalies window12var spikeHalfVitals,
        a.category = .hr_anomaly ∧ a.type = .warning) ∧
    specHrAnomalyFires window12var spikeHalfVitals.heartRate = false := by
  with_unfolding_all decide

/-- C2 (amended): on a window of length at least 12 the evaluator emits
the `hr_anomaly` warning exactly when `|z| > 2.5` for
`z = (currentHR - mean) / (stddev if stddev is non-zero, else 1)` —
population mean and standard deviation over the whole window — and that
test is the stated real-number formula. -/
theorem hr_zscore_amended (window : List Vitals) (v : Vitals)
    (h : 12 ≤ window.length) :
    ((∃ a ∈ checkStatisticalAnomalies window v,
        a.category = .hr_anomaly ∧ a.type = .warning) ↔
      hrAnomalyFires window v.heartRate = true) ∧
    (hrAnomalyFires window v.heartRate = true ↔
      (5/2 : ℝ) < |((v.heartRate : ℝ) - (hrMean window : ℝ)) /
        (if Real.sqrt (hrVariance window) = 0 then 1
         else Real.sqrt (hrVariance window))|) := by
  refine ⟨?_, hrAnomalyFires_iff_real window v.heartRate⟩
  unfold checkStatisticalAnomalies
  rw [if_neg (by omega)]
  by_cases hf : hrAnomalyFires window v.heartRate <;>
    by_cases ht : spo2Trend window < -5 <;>
    simp [hf, ht]

/-- Witness for C2: on the constant-70 window, the spike at heart rate
100 makes the evaluator emit the `hr_anomaly` warning. -/
theorem hr_zscore_amended_witness :
    ∃ a ∈ checkStatisticalAnomalies constWindow12 spikeVitals,
      a.category = .hr_anomaly ∧ a.type = .warning :=
  (hr_zscore_amended constWindow12 spikeVitals
      (by with_unfolding_all decide)).1.mpr
    (by with_unfolding_all decide)

/-! ## Retrospective request validation (C9) -/

/-- The empty store, used by the C9 witness. -/
def emptyDb : Database :=
  { healthRecords := [], patients := [], anomalies := [], alertLogs := [] }

/-- A request whose startDate string does not parse. -/
def badStartBody : RetroRequestBody :=
  { patientId := none, startDate := some .invalid, endDate := none,
    updateDatabase := true }

/-- C9: an unparseable startDate or endDate, or a start date after the
end date, is rejected with a 400 response before the runner is invoked:
the database (and hence every persisted record, counter and all detector
state) is returned untouched. -/
theorem retrospective_validation (currentHour : ℕ) (db : Database)
    (body : RetroRequestBody)
    (h : body.startDate = some .invalid ∨ body.endDate = some .invalid ∨
      ∃ s e, body.startDate = some (.valid s) ∧ body.endDate = some (.valid e) ∧
        e < s) :
    (∃ msg, (retrospectiveRoute currentHour db body).1 = .badRequest msg) ∧
    (retrospectiveRoute currentHour db body).2 = db := by
  unfold retrospectiveRoute
  rcases h with h | h | ⟨s, e, hs, he, hlt⟩
  · rw [if_pos h]
    exact ⟨⟨_, rfl⟩, rfl⟩
  · by_cases h1 : body.startDate = some .invalid
    · rw [if_pos h1]
      exact ⟨⟨_, rfl⟩, rfl⟩
    · rw [if_neg h1, if_pos h]
      exact ⟨⟨_, rfl⟩, rfl⟩
  · have h1 : ¬body.startDate = some ParsedDate.invalid := by
      rw [hs]
      simp
    have h2 : ¬body.endDate = some ParsedDate.invalid := by
      rw [he]
      simp
    rw [if_neg h1, if_neg h2]
    simp only [hs, he]
    rw [if_pos hlt]
    exact ⟨⟨_, rfl⟩, rfl⟩

/-- Witness for C9: the concrete bad request against the empty store. -/
theorem retrospective_validation_witness :
    (∃ msg, (retrospectiveRoute 12 emptyDb badStartBody).1 = .badRequest msg) ∧
    (retrospectiveRoute 12 emptyDb badStartBody).2 = emptyDb :=
  retrospective_validation 12 emptyDb badStartBody (Or.inl rfl)

/-! ## Idempotence of retrospective detection (C3)

The replay of a record group is deterministic: the window/history
evolution inside `processRecord` does not depend on the dedup set, the
counters or the database, so the set of records flagged anomalous — and
hence the dedup keys they produce — is a pure function of the group and
the starting window.  The proof shows (run 1) that with
`updateDatabase = true` every such key ends up among the keys visible to
a later run's existing-anomaly query, and (run 2) that a run whose
initial dedup set covers all those keys counts zero new anomalies. -/

/-- The dedup keys of the records a replay flags anomalous, as a pure
function of the group and the starting detector state. -/
def replayAnomalousKeys (currentHour : ℕ) (pid : String) (patient : Patient) :
    List Vitals → List HistoryEntry → List HealthRecord → List (String × ℕ)
  | _, _, [] => []
  | window, history, r :: rs =>
    (if (detectAnomalies currentHour pid r.toVitals patient window
        history).1.isAnomaly then
      [anomalyKey pid r.recordedAt]
    else []) ++
    replayAnomalousKeys currentHour pid patient
      (detectAnomalies currentHour pid r.toVitals patient window history).2.1
      (detectAnomalies currentHour pid r.toVitals patient window history).2.2 rs

/-- A record that is not anomalous, or whose key is already known, only
advances the window/history and the processed counter. -/
theorem processRecord_not_new (currentHour : ℕ) (u : Bool) (patient : Patient)
    (pid : String) (st : PatientLoopState) (r : HealthRecord)
    (h : (detectAnomalies currentHour pid r.toVitals patient st.window
        st.history).1.isAnomaly = false ∨
      anomalyKey pid r.recordedAt ∈ st.existingAnomalySet) :
    processRecord currentHour u patient pid st r =
      { st with
        window := (detectAnomalies currentHour pid r.toVitals patient st.window
          st.history).2.1,
        history := (detectAnomalies currentHour pid r.toVitals patient st.window
          st.history).2.2,
        results := { st.results with processed := st.results.processed + 1 } } := by
  rcases h with h | h
  · simp [processRecord, h]
  · by_cases hA : (detectAnomalies currentHour pid r.toVitals patient st.window
        st.history).1.isAnomaly = true
    · simp [processRecord, hA, h]
    · rw [Bool.not_eq_true] at hA
      simp [processRecord, hA]

/-- The anomaly record `Anomaly.create` writes for a newly-flagged
record (metadata reduced to the `retrospective` tag; the detection-date
and score metadata are never read back). -/
def persistedAnomaly (currentHour : ℕ) (pid : String) (patient : Patient)
    (window : List Vitals) (history : List HistoryEntry) (r : HealthRecord) :
    AnomalyRecord :=
  { patientId := pid,
    severity := (detectAnomalies currentHour pid r.toVitals patient window
      history).1.severity,
    detectedAt := r.recordedAt,
    alerts := (detectAnomalies currentHour pid r.toVitals patient window
      history).1.alerts,
    retrospective := true }

/-- A newly-flagged anomaly under `updateDatabase = true`: the key is
appended to the dedup set, the anomaly record (with `detectedAt` the
record's timestamp and the group's patient id) is persisted, health
records and patients are untouched, and the counter increments. -/
theorem processRecord_new (currentHour : ℕ) (patient : Patient)
    (pid : String) (st : PatientLoopState) (r : HealthRecord)
    (hA : (detectAnomalies currentHour pid r.toVitals patient st.window
        st.history).1.isAnomaly = true)
    (hK : anomalyKey pid r.recordedAt ∉ st.existingAnomalySet) :
    (processRecord currentHour true patient pid st r).window =
      (detectAnomalies currentHour pid r.toVitals patient st.window
        st.history).2.1 ∧
    (processRecord currentHour true patient pid st r).history =
      (detectAnomalies currentHour pid r.toVitals patient st.window
        st.history).2.2 ∧
    (processRecord currentHour true patient pid st r).existingAnomalySet =
      st.existingAnomalySet ++ [anomalyKey pid r.recordedAt] ∧
    (processRecord currentHour true patient pid st r).db.anomalies =
      st.db.anomalies ++
        [persistedAnomaly currentHour pid patient st.window st.history r] ∧
    (processRecord currentHour true patient pid st r).db.healthRecords =
      st.db.healthRecords ∧
    (processRecord currentHour true patient pid st r).db.patients =
      st.db.patients ∧
    (processRecord currentHour true patient pid st r).results.newAnomaliesDetected =
      st.results.newAnomaliesDetected + 1 := by
  simp [processRecord, persistedAnomaly, hA, hK]

/-- A record-group replay whose anomalous keys are all already in the
dedup set changes neither the set, nor the database, nor the
new-anomaly counter. -/
theorem processRecords_covered (currentHour : ℕ) (u : Bool) (patient : Patient)
    (pid : String) (records : List HealthRecord) :
    ∀ st : PatientLoopState,
      (∀ k ∈ replayAnomalousKeys currentHour pid patient st.window st.history
        records, k ∈ st.existingAnomalySet) →
      ((records.foldl (processRecord currentHour u patient pid)
          st).existingAnomalySet = st.existingAnomalySet ∧
        (records.foldl (processRecord currentHour u patient pid) st).db = st.db ∧
        (records.foldl (processRecord currentHour u patient pid)
          st).results.newAnomaliesDetected =
          st.results.newAnomaliesDetected) := by
  induction records with
  | nil =>
    intro st _
    exact ⟨rfl, rfl, rfl⟩
  | cons r rs ih =>
    intro st hcov
    rw [List.foldl_cons]
    have hhead : (detectAnomalies currentHour pid r.toVitals patient st.window
        st.history).1.isAnomaly = false ∨
        anomalyKey pid r.recordedAt ∈ st.existingAnomalySet := by
      cases hA : (detectAnomalies currentHour pid r.toVitals patient st.window
          st.history).1.isAnomaly
      · exact Or.inl rfl
      · refine Or.inr (hcov _ ?_)
        rw [replayAnomalousKeys, hA]
        simp
    rw [processRecord_not_new currentHour u patient pid st r hhead]
    have hcov2 : ∀ k ∈ replayAnomalousKeys currentHour pid patient
        (detectAnomalies currentHour pid r.toVitals patient st.window
          st.history).2.1
        (detectAnomalies currentHour pid r.toVitals patient st.window
          st.history).2.2 rs, k ∈ st.existingAnomalySet := by
      intro k hk
      refine hcov k ?_
      rw [replayAnomalousKeys]
      exact List.mem_append_right _ hk
    exact ih _ hcov2

/-- An anomaly written for a record the query returned passes the
existing-anomaly query of any later run with the same options. -/
theorem anomalyMatches_of_recordMatches (opts : RetroOptions) (r : HealthRecord)
    (h : recordMatches opts r = true) (a : AnomalyRecord)
    (hpid : a.patientId = r.patientId) (hdet : a.detectedAt = r.recordedAt) :
    anomalyMatches opts a = true := by
  unfold recordMatches at h
  unfold anomalyMatches
  rw [hpid, hdet]
  rcases opts with ⟨op, os, oe, ou⟩
  cases op <;> cases os <;> cases oe <;> simp_all

/-- Run-1 postconditions of one record-group replay with
`updateDatabase = true`: the database only gains anomaly records that
match the query options, health records and patients stay untouched, the
dedup set only grows — by exactly the keys of the persisted anomalies —
and every key the replay flags ends up in the final dedup set. -/
theorem processRecords_run1 (currentHour : ℕ) (patient : Patient)
    (pid : String) (opts : RetroOptions) (records : List HealthRecord) :
    ∀ st : PatientLoopState,
      (∀ r ∈ records, r.patientId = pid ∧ recordMatches opts r = true) →
      ∃ l : List AnomalyRecord,
        (records.foldl (processRecord currentHour true patient pid)
            st).db.anomalies = st.db.anomalies ++ l ∧
        (∀ a ∈ l, anomalyMatches opts a = true) ∧
        (records.foldl (processRecord currentHour true patient pid)
          st).db.healthRecords = st.db.healthRecords ∧
        (records.foldl (processRecord currentHour true patient pid)
          st).db.patients = st.db.patients ∧
        (∀ k ∈ (records.foldl (processRecord currentHour true patient pid)
            st).existingAnomalySet,
          k ∈ st.existingAnomalySet ∨
            k ∈ l.map (fun a => anomalyKey a.patientId a.detectedAt)) ∧
        (∀ k ∈ st.existingAnomalySet,
          k ∈ (records.foldl (processRecord currentHour true patient pid)
            st).existingAnomalySet) ∧
        (∀ k ∈ replayAnomalousKeys currentHour pid patient st.window st.history
            records,
          k ∈ (records.foldl (processRecord currentHour true patient pid)
            st).existingAnomalySet) := by
  induction records with
  | nil =>
    intro st _
    refine ⟨[], by simp, by simp, rfl, rfl, fun k hk => Or.inl hk,
      fun k hk => hk, ?_⟩
    intro k hk
    simp [replayAnomalousKeys] at hk
  | cons r rs ih =>
    intro st hrec
    obtain ⟨hpid, hmatch⟩ := hrec r (List.mem_cons_self r rs)
    have hrecs : ∀ x ∈ rs, x.patientId = pid ∧ recordMatches opts x = true :=
      fun x hx => hrec x (List.mem_cons_of_mem r hx)
    rw [List.foldl_cons]
    by_cases hA : (detectAnomalies currentHour pid r.toVitals patient st.window
        st.history).1.isAnomaly = true
    · by_cases hK : anomalyKey pid r.recordedAt ∈ st.existingAnomalySet
      · -- already deduplicated: state advances, nothing persisted
        rw [processRecord_not_new currentHour true patient pid st r (Or.inr hK)]
        obtain ⟨l, h1, h2, h3, h4, h5, h6, h7⟩ := ih _ hrecs
        refine ⟨l, h1, h2, h3, h4, h5, h6, ?_⟩
        intro k hk
        rw [replayAnomalousKeys] at hk
        rcases List.mem_append.mp hk with hk | hk
        · rw [hA, if_pos rfl, List.mem_singleton] at hk
          subst hk
          exact h6 _ hK
        · exact h7 k hk
      · -- a new anomaly: persisted, key appended
        obtain ⟨hw, hh, hset, hanom, hhr, hpat, _⟩ :=
          processRecord_new currentHour patient pid st r hA hK
        obtain ⟨l, h1, h2, h3, h4, h5, h6, h7⟩ := ih _ hrecs
        refine ⟨persistedAnomaly currentHour pid patient st.window st.history r
          :: l, ?_, ?_, ?_, ?_, ?_, ?_, ?_⟩
        · rw [h1, hanom, List.append_assoc, List.singleton_append]
        · intro a ha
          rcases List.mem_cons.mp ha with ha | ha
          · subst ha
            exact anomalyMatches_of_recordMatches opts r hmatch _ hpid.symm rfl
          · exact h2 a ha
        · rw [h3, hhr]
        · rw [h4, hpat]
        · intro k hk
          rcases h5 k hk with hk2 | hk2
          · rw [hset] at hk2
            rcases List.mem_append.mp hk2 with hk3 | hk3
            · exact Or.inl hk3
            · rw [List.mem_singleton] at hk3
              subst hk3
              refine Or.inr ?_
              rw [List.map_cons]
              exact List.mem_cons_self _ _
          · refine Or.inr ?_
            rw [List.map_cons]
            exact List.mem_cons_of_mem _ hk2
        · intro k hk
          refine h6 k ?_
          rw [hset]
          exact List.mem_append_left _ hk
        · intro k hk
          rw [replayAnomalousKeys] at hk
          rcases List.mem_append.mp hk with hk | hk
          · rw [hA, if_pos rfl, List.mem_singleton] at hk
            subst hk
            refine h6 _ ?_
            rw [hset]
            exact List.mem_append_right _ (List.mem_singleton_self _)
          · refine h7 k ?_
            rw [hw, hh]
            exact hk
    · -- not anomalous: state advances, nothing persisted
      rw [Bool.not_eq_true] at hA
      rw [processRecord_not_new currentHour true patient pid st r (Or.inl hA)]
      obtain ⟨l, h1, h2, h3, h4, h5, h6, h7⟩ := ih _ hrecs
      refine ⟨l, h1, h2, h3, h4, h5, h6, ?_⟩
      intro k hk
      rw [replayAnomalousKeys] at hk
      rcases List.mem_append.mp hk with hk | hk
      · rw [hA] at hk
        simp at hk
      · exact h7 k hk

/-- The per-patient initial loop state built by `processPatient`. -/
@[reducible] def initLoopState (currentHour : ℕ) (patient : Patient) (pid : String)
    (st : RunState) (records : List HealthRecord) : PatientLoopState :=
  { window := contextWindow st.db.healthRecords pid (firstRecordedAt records),
    history := [],
    existingAnomalySet := st.existingAnomalySet, results := st.results,
    summary := { patientName := patient.name,
                 recordsProcessed := records.length, newAnomalies := 0,
                 criticalAnomalies := 0, warningAnomalies := 0 },
    db := st.db }

/-- `processPatient` on a found patient: set, database and new-anomaly
counter are those of the inner record fold (only the per-patient summary
is attached on top). -/
theorem processPatient_some_proj (currentHour : ℕ) (u : Bool)
    (patients : List Patient) (st : RunState) (pid : String)
    (records : List HealthRecord) (patient : Patient)
    (hfind : patients.find? (fun p => decide (p.patientId = pid)) =
      some patient) :
    (processPatient currentHour u patients st pid records).existingAnomalySet =
      (records.foldl (processRecord currentHour u patient pid)
        (initLoopState currentHour patient pid st records)).existingAnomalySet ∧
    (processPatient currentHour u patients st pid records).db =
      (records.foldl (processRecord currentHour u patient pid)
        (initLoopState currentHour patient pid st records)).db ∧
    (processPatient currentHour u patients st pid
        records).results.newAnomaliesDetected =
      (records.foldl (processRecord currentHour u patient pid)
        (initLoopState currentHour patient pid st
          records)).results.newAnomaliesDetected := by
  unfold processPatient initLoopState
  rw [hfind]
  exact ⟨rfl, rfl, rfl⟩

/-- `processPatient` on a missing patient only appends an error
string. -/
theorem processPatient_none_proj (currentHour : ℕ) (u : Bool)
    (patients : List Patient) (st : RunState) (pid : String)
    (records : List HealthRecord)
    (hfind : patients.find? (fun p => decide (p.patientId = pid)) = none) :
    processPatient currentHour u patients st pid records =
      { st with
        results := { st.results with
                     errors := st.results.errors ++
                       ["Patient " ++ pid ++ " not found in database"] } } := by
  unfold processPatient
  rw [hfind]

/-- A per-patient fold whose record groups only produce already-known
dedup keys changes neither the set, nor the database, nor the
new-anomaly counter. -/
theorem runFold_covered (currentHour : ℕ) (u : Bool) (patients : List Patient)
    (recordsOf : String → List HealthRecord) (pids : List String) :
    ∀ st : RunState,
      (∀ pid ∈ pids, ∀ patient,
        patients.find? (fun p => decide (p.patientId = pid)) = some patient →
        ∀ k ∈ replayAnomalousKeys currentHour pid patient
          (contextWindow st.db.healthRecords pid
            (firstRecordedAt (recordsOf pid)))
          [] (recordsOf pid), k ∈ st.existingAnomalySet) →
      ((pids.foldl (fun s pid =>
          processPatient currentHour u patients s pid (recordsOf pid))
          st).existingAnomalySet = st.existingAnomalySet ∧
        (pids.foldl (fun s pid =>
          processPatient currentHour u patients s pid (recordsOf pid))
          st).db = st.db ∧
        (pids.foldl (fun s pid =>
          processPatient currentHour u patients s pid (recordsOf pid))
          st).results.newAnomaliesDetected =
          st.results.newAnomaliesDetected) := by
  induction pids with
  | nil =>
    intro st _
    exact ⟨rfl, rfl, rfl⟩
  | cons pid pids ih =>
    intro st hcov
    rw [List.foldl_cons]
    cases hfind : patients.find? (fun p => decide (p.patientId = pid)) with
    | none =>
      rw [processPatient_none_proj currentHour u patients st pid
        (recordsOf pid) hfind]
      exact ih _ (fun pid2 hp2 => hcov pid2 (List.mem_cons_of_mem _ hp2))
    | some patient =>
      obtain ⟨e1, e2, e3⟩ := processPatient_some_proj currentHour u patients st
        pid (recordsOf pid) patient hfind
      have hinner := processRecords_covered currentHour u patient pid
        (recordsOf pid) (initLoopState currentHour patient pid st (recordsOf pid))
        (hcov pid (List.mem_cons_self _ _) patient hfind)
      have hset : (processPatient currentHour u patients st pid
          (recordsOf pid)).existingAnomalySet = st.existingAnomalySet := by
        rw [e1]
        exact hinner.1
      have hdb : (processPatient currentHour u patients st pid
          (recordsOf pid)).db = st.db := by
        rw [e2]
        exact hinner.2.1
      have hcount : (processPatient currentHour u patients st pid
          (recordsOf pid)).results.newAnomaliesDetected =
          st.results.newAnomaliesDetected := by
        rw [e3]
        exact hinner.2.2
      have ihh := ih (processPatient currentHour u patients st pid
        (recordsOf pid)) ?_
      · exact ⟨by rw [ihh.1, hset], by rw [ihh.2.1, hdb],
          by rw [ihh.2.2, hcount]⟩
      · intro pid2 h2 p2 hf2 k hk
        rw [hset]
        refine hcov pid2 (List.mem_cons_of_mem _ h2) p2 hf2 k ?_
        rw [hdb] at hk
        exact hk

/-- Run-1 postconditions of the whole per-patient fold with
`updateDatabase = true`: the database gains only matching anomaly
records, health records and patients are untouched, the dedup set grows
by exactly the persisted keys, and for every patient group the keys the
deterministic replay flags all end up in the final dedup set. -/
theorem runFold_run1 (currentHour : ℕ) (patients : List Patient)
    (opts : RetroOptions) (recordsOf : String → List HealthRecord)
    (hrecAll : ∀ pid : String, ∀ r ∈ recordsOf pid,
      r.patientId = pid ∧ recordMatches opts r = true)
    (pids : List String) :
    ∀ st : RunState,
      ∃ l : List AnomalyRecord,
        (pids.foldl (fun s pid =>
          processPatient currentHour true patients s pid (recordsOf pid))
          st).db.anomalies = st.db.anomalies ++ l ∧
        (∀ a ∈ l, anomalyMatches opts a = true) ∧
        (pids.foldl (fun s pid =>
          processPatient currentHour true patients s pid (recordsOf pid))
          st).db.healthRecords = st.db.healthRecords ∧
        (pids.foldl (fun s pid =>
          processPatient currentHour true patients s pid (recordsOf pid))
          st).db.patients = st.db.patients ∧
        (∀ k ∈ (pids.foldl (fun s pid =>
            processPatient currentHour true patients s pid (recordsOf pid))
            st).existingAnomalySet,
          k ∈ st.existingAnomalySet ∨
            k ∈ l.map (fun a => anomalyKey a.patientId a.detectedAt)) ∧
        (∀ k ∈ st.existingAnomalySet, k ∈ (pids.foldl (fun s pid =>
          processPatient currentHour true patients s pid (recordsOf pid))
          st).existingAnomalySet) ∧
        (∀ pid ∈ pids, ∀ patient,
          patients.find? (fun p => decide (p.patientId = pid)) = some patient →
          ∀ k ∈ replayAnomalousKeys currentHour pid patient
            (contextWindow st.db.healthRecords pid
              (firstRecordedAt (recordsOf pid)))
            [] (recordsOf pid),
            k ∈ (pids.foldl (fun s pid =>
              processPatient currentHour true patients s pid (recordsOf pid))
              st).existingAnomalySet) := by
  induction pids with
  | nil =>
    intro st
    refine ⟨[], by simp, by simp, rfl, rfl, fun k hk => Or.inl hk,
      fun k hk => hk, ?_⟩
    intro pid hpid
    cases hpid
  | cons pid pids ih =>
    intro st
    rw [List.foldl_cons]
    cases hfind : patients.find? (fun p => decide (p.patientId = pid)) with
    | none =>
      rw [processPatient_none_proj currentHour true patients st pid
        (recordsOf pid) hfind]
      obtain ⟨l, j1, j2, j3, j4, j5, j6, j7⟩ := ih _
      refine ⟨l, j1, j2, j3, j4, j5, j6, ?_⟩
      intro pid2 hp2 p2 hf2
      rcases List.mem_cons.mp hp2 with hp2 | hp2
      · subst hp2
        rw [hfind] at hf2
        cases hf2
      · exact j7 pid2 hp2 p2 hf2
    | some patient =>
      obtain ⟨e1, e2, e3⟩ := processPatient_some_proj currentHour true patients
        st pid (recordsOf pid) patient hfind
      obtain ⟨l1, i1, i2, i3, i4, i5, i6, i7⟩ := processRecords_run1 currentHour
        patient pid opts (recordsOf pid)
        (initLoopState currentHour patient pid st (recordsOf pid))
        (hrecAll pid)
      have hst2anoms : (processPatient currentHour true patients st pid
          (recordsOf pid)).db.anomalies = st.db.anomalies ++ l1 := by
        rw [e2]
        exact i1
      have hst2hr : (processPatient currentHour true patients st pid
          (recordsOf pid)).db.healthRecords = st.db.healthRecords := by
        rw [e2]
        exact i3
      have hst2pat : (processPatient currentHour true patients st pid
          (recordsOf pid)).db.patients = st.db.patients := by
        rw [e2]
        exact i4
      have hst2sub : ∀ k ∈ (processPatient currentHour true patients st pid
          (recordsOf pid)).existingAnomalySet,
          k ∈ st.existingAnomalySet ∨
            k ∈ l1.map (fun a => anomalyKey a.patientId a.detectedAt) := by
        rw [e1]
        exact i5
      have hst2sup : ∀ k ∈ st.existingAnomalySet,
          k ∈ (processPatient currentHour true patients st pid
            (recordsOf pid)).existingAnomalySet := by
        rw [e1]
        exact i6
      have hst2replay : ∀ k ∈ replayAnomalousKeys currentHour pid patient
          (contextWindow st.db.healthRecords pid
            (firstRecordedAt (recordsOf pid)))
          [] (recordsOf pid),
          k ∈ (processPatient currentHour true patients st pid
            (recordsOf pid)).existingAnomalySet := by
        rw [e1]
        exact i7
      obtain ⟨l2, j1, j2, j3, j4, j5, j6, j7⟩ := ih
        (processPatient currentHour true patients st pid (recordsOf pid))
      refine ⟨l1 ++ l2, ?_, ?_, ?_, ?_, ?_, ?_, ?_⟩
      · rw [j1, hst2anoms, List.append_assoc]
      · intro a ha
        rcases List.mem_append.mp ha with ha | ha
        · exact i2 a ha
        · exact j2 a ha
      · rw [j3, hst2hr]
      · rw [j4, hst2pat]
      · intro k hk
        rcases j5 k hk with hk2 | hk2
        · rcases hst2sub k hk2 with hk3 | hk3
          · exact Or.inl hk3
          · refine Or.inr ?_
            rw [List.map_append]
            exact List.mem_append_left _ hk3
        · refine Or.inr ?_
          rw [List.map_append]
          exact List.mem_append_right _ hk2
      · intro k hk
        exact j6 k (hst2sup k hk)
      · intro pid2 hp2 p2 hf2
        rcases List.mem_cons.mp hp2 with hp2 | hp2
        · subst hp2
          rw [hfind] at hf2
          injection hf2 with hf2
          subst hf2
          intro k hk
          exact j6 k (hst2replay k hk)
        · intro k hk
          rw [← hst2hr] at hk
          exact j7 pid2 hp2 p2 hf2 k hk

/-- The no-active-patients early return. -/
theorem detectRetrospectiveAnomalies_empty (currentHour : ℕ) (db : Database)
    (opts : RetroOptions) (hz : (activePatients db opts).length = 0) :
    detectRetrospectiveAnomalies currentHour db opts = (emptyResults, db) := by
  unfold detectRetrospectiveAnomalies
  rw [if_pos hz]

/-- The main path of `detectRetrospectiveAnomalies`. -/
theorem detectRetrospectiveAnomalies_run (currentHour : ℕ) (db : Database)
    (opts : RetroOptions) (hz : ¬(activePatients db opts).length = 0) :
    detectRetrospectiveAnomalies currentHour db opts =
      ((runStateFinal currentHour db opts).results,
        (runStateFinal currentHour db opts).db) := by
  unfold detectRetrospectiveAnomalies
  rw [if_neg hz]

/-- `runStateFinal` with `updateDatabase = true` spelled out. -/
theorem runStateFinal_eq_true (currentHour : ℕ) (db : Database)
    (opts : RetroOptions) (h : opts.updateDatabase = true) :
    runStateFinal currentHour db opts =
      (groupPids (queriedRecords db opts)).foldl (fun s pid =>
          processPatient currentHour true (activePatients db opts) s pid
            ((queriedRecords db opts).filter
              (fun r => decide (r.patientId = pid))))
        { existingAnomalySet := dbKeys opts db, results := emptyResults,
          db := db } := by
  unfold runStateFinal
  rw [h]

/-- The active-patient query only reads the patients collection. -/
theorem activePatients_ext (db1 db2 : Database) (opts : RetroOptions)
    (hp : db1.patients = db2.patients) :
    activePatients db1 opts = activePatients db2 opts := by
  unfold activePatients
  rw [hp]

/-- The record query only reads the health-record collection. -/
theorem queriedRecords_ext (db1 db2 : Database) (opts : RetroOptions)
    (hh : db1.healthRecords = db2.healthRecords) :
    queriedRecords db1 opts = queriedRecords db2 opts := by
  unfold queriedRecords
  rw [hh]

/-- Every queried record satisfies the query options. -/
theorem mem_queriedRecords (db : Database) (opts : RetroOptions)
    (r : HealthRecord) (hr : r ∈ queriedRecords db opts) :
    recordMatches opts r = true := by
  unfold queriedRecords at hr
  have hperm := List.perm_insertionSort (fun a b => a.recordedAt ≤ b.recordedAt)
    (db.healthRecords.filter (recordMatches opts))
  rw [hperm.mem_iff] at hr
  exact (List.mem_filter.mp hr).2

/-- Appending matching anomalies appends exactly their keys to the
visible dedup-key list. -/
theorem dbKeys_append (opts : RetroOptions) (db1 db : Database)
    (l : List AnomalyRecord) (ha : db1.anomalies = db.anomalies ++ l)
    (hm : ∀ a ∈ l, anomalyMatches opts a = true) :
    dbKeys opts db1 = dbKeys opts db ++
      l.map (fun a => anomalyKey a.patientId a.detectedAt) := by
  unfold dbKeys
  rw [ha, List.filter_append, List.map_append, List.filter_eq_self.mpr hm]

/-- C3: with `updateDatabase = true` (and, in this model, persistence
that always succeeds), running the retrospective detection twice with
the same options over the database produced by the first run counts zero
new anomalies the second time: every anomaly the deterministic replay
flags again matches a dedup key persisted by the first run. -/
theorem retrospective_idempotent (currentHour : ℕ) (db : Database)
    (opts : RetroOptions) (h : opts.updateDatabase = true) :
    (detectRetrospectiveAnomalies currentHour
      (detectRetrospectiveAnomalies currentHour db opts).2
      opts).1.newAnomaliesDetected = 0 := by
  by_cases hz1 : (activePatients db opts).length = 0
  · rw [detectRetrospectiveAnomalies_empty currentHour db opts hz1]
    show (detectRetrospectiveAnomalies currentHour db opts).1.newAnomaliesDetected = 0
    rw [detectRetrospectiveAnomalies_empty currentHour db opts hz1]
    rfl
  · rw [detectRetrospectiveAnomalies_run currentHour db opts hz1]
    show (detectRetrospectiveAnomalies currentHour
      (runStateFinal currentHour db opts).db opts).1.newAnomaliesDetected = 0
    have hrecAll : ∀ pid : String, ∀ r ∈ (queriedRecords db opts).filter
        (fun r => decide (r.patientId = pid)),
        r.patientId = pid ∧ recordMatches opts r = true := by
      intro pid r hr
      have h1 := List.mem_filter.mp hr
      exact ⟨of_decide_eq_true h1.2, mem_queriedRecords db opts r h1.1⟩
    obtain ⟨L, A1, A2, A3, A4, A5, A6, A7⟩ := runFold_run1 currentHour
      (activePatients db opts) opts
      (fun pid => (queriedRecords db opts).filter
        (fun r => decide (r.patientId = pid)))
      hrecAll (groupPids (queriedRecords db opts))
      { existingAnomalySet := dbKeys opts db, results := emptyResults,
        db := db }
    have hdb1a : (runStateFinal currentHour db opts).db.anomalies =
        db.anomalies ++ L := by
      rw [runStateFinal_eq_true currentHour db opts h]
      exact A1
    have hdb1h : (runStateFinal currentHour db opts).db.healthRecords =
        db.healthRecords := by
      rw [runStateFinal_eq_true currentHour db opts h]
      exact A3
    have hdb1p : (runStateFinal currentHour db opts).db.patients =
        db.patients := by
      rw [runStateFinal_eq_true currentHour db opts h]
      exact A4
    have hP : activePatients (runStateFinal currentHour db opts).db opts =
        activePatients db opts :=
      activePatients_ext _ db opts hdb1p
    have hQ : queriedRecords (runStateFinal currentHour db opts).db opts =
        queriedRecords db opts :=
      queriedRecords_ext _ db opts hdb1h
    have hz2 : ¬(activePatients (runStateFinal currentHour db opts).db
        opts).length = 0 := by
      rw [hP]
      exact hz1
    rw [detectRetrospectiveAnomalies_run currentHour _ opts hz2]
    show (runStateFinal currentHour (runStateFinal currentHour db opts).db
      opts).results.newAnomaliesDetected = 0
    rw [runStateFinal_eq_true currentHour _ opts h]
    have hkeys : dbKeys opts (runStateFinal currentHour db opts).db =
        dbKeys opts db ++
          L.map (fun a => anomalyKey a.patientId a.detectedAt) :=
      dbKeys_append opts _ db L hdb1a A2
    have hc := runFold_covered currentHour true
      (activePatients (runStateFinal currentHour db opts).db opts)
      (fun pid => (queriedRecords (runStateFinal currentHour db opts).db
        opts).filter (fun r => decide (r.patientId = pid)))
      (groupPids (queriedRecords (runStateFinal currentHour db opts).db opts))
      { existingAnomalySet := dbKeys opts (runStateFinal currentHour db opts).db,
        results := emptyResults,
        db := (runStateFinal currentHour db opts).db }
      ?_
    · rw [hc.2.2]
      rfl
    · intro pid hpid patient hfind k hk
      show k ∈ dbKeys opts (runStateFinal currentHour db opts).db
      rw [hkeys]
      rw [hQ] at hpid hk
      rw [hP] at hfind
      have hk2 : k ∈ replayAnomalousKeys currentHour pid patient
          (contextWindow db.healthRecords pid
            (firstRecordedAt ((queriedRecords db opts).filter
              (fun r => decide (r.patientId = pid)))))
          [] ((queriedRecords db opts).filter
            (fun r => decide (r.patientId = pid))) := by
        have hctx : contextWindow
            ((runStateFinal currentHour db opts).db).healthRecords pid
            (firstRecordedAt ((queriedRecords db opts).filter
              (fun r => decide (r.patientId = pid)))) =
            contextWindow db.healthRecords pid
            (firstRecordedAt ((queriedRecords db opts).filter
              (fun r => decide (r.patientId = pid)))) := by
          rw [hdb1h]
        rw [← hctx]
        exact hk
      have hin := A7 pid hpid patient hfind k hk2
      rcases A5 k hin with hk1 | hk1
      · exact List.mem_append_left _ hk1
      · exact List.mem_append_right _ hk1

/-- The C3 witness store: one active patient and one feverish record. -/
def witRecord : HealthRecord :=
  { patientId := "P1", heartRate := 70, systolic := 120, diastolic := 80,
    spo2 := 98, bodyTemperature := 39, motionLevel := 3/10,
    fallRiskScore := 10, recordedAt := 120000 }

/-- The C3 witness database. -/
def witDb : Database :=
  { healthRecords := [witRecord], patients := [benignPatient],
    anomalies := [], alertLogs := [] }

/-- The C3 witness options: all patients, no date bounds, persist. -/
def witOpts : RetroOptions :=
  { patientId := none, startDate := none, endDate := none,
    updateDatabase := true }

/-- Witness for C3: the concrete store replayed twice counts zero new
anomalies on the second run. -/
theorem retrospective_idempotent_witness :
    (detectRetrospectiveAnomalies 12
      (detectRetrospectiveAnomalies 12 witDb witOpts).2
      witOpts).1.newAnomaliesDetected = 0 :=
  retrospective_idempotent 12 witDb witOpts rfl

end HealthMonitor
